import Mathlib

/-!
Verification of the casbun policy-storage adapter.

The adapter persists variable-arity policy tuples (lists of strings) as
fixed-shape rows with a rule-type tag `PType` and six positional value
slots `V0..V5`.  We embed the tuple codec (`newCasbinPolicy`,
`filterValues`, `filterValuesWithKey`, `toSlice`), the filter-predicate
builder used by filtered delete and filtered replace, and the mutation
operations over a table modelled as a list of rows.  Storage-engine
behaviour (transactions roll back on error, a single statement is atomic,
the unique index over `(ptype, v0..v5)` rejects duplicates, `CREATE INDEX`
without `IF NOT EXISTS` fails when the index exists) is modelled
explicitly where a claim depends on it.
-/

namespace Casbun

/-- The storage row: one rule-type tag plus six positional value slots,
mirroring the `CasbinPolicy` struct (the storage-assigned `id` is
irrelevant to semantics and omitted). -/
structure CasbinPolicy where
  PType : String
  V0 : String
  V1 : String
  V2 : String
  V3 : String
  V4 : String
  V5 : String
deriving Repr, DecidableEq

/-- The six value slots of a row, in order (`[]string{c.V0, ..., c.V5}`). -/
def CasbinPolicy.valueFields (c : CasbinPolicy) : List String :=
  [c.V0, c.V1, c.V2, c.V3, c.V4, c.V5]

/-- Slot accessor: slot `n` is column `vn`; out-of-range slots read as
empty (they do not exist in the row). -/
def CasbinPolicy.slot (c : CasbinPolicy) : Nat → String
  | 0 => c.V0
  | 1 => c.V1
  | 2 => c.V2
  | 3 => c.V3
  | 4 => c.V4
  | 5 => c.V5
  | _ => ""

/-- Model of `nonEmptyFields`: keep the non-empty strings, preserving order. -/
def nonEmptyFields (fields : List String) : List String :=
  fields.filter (fun f => f ≠ "")

/-- Model of `toSlice`: the full decoded tuple `[PType, v0..v5]` with empty fields
dropped (the spec's `decode_full`). -/
def CasbinPolicy.toSlice (c : CasbinPolicy) : List String :=
  nonEmptyFields (c.PType :: c.valueFields)

/-- Model of `filterValues`: the decoded value tuple `v0..v5` with empty fields
dropped (the spec's `decode_filter_values`). -/
def CasbinPolicy.filterValues (c : CasbinPolicy) : List String :=
  nonEmptyFields c.valueFields

/-- Model of `filterValuesWithKey`: the non-empty slots keyed by their position
(the Go code keys by the column name `v<i>`; we key by the index `i`).
The Go map is used only as a conjunction of equality filters, so the
association list is an order-faithful embedding. -/
def CasbinPolicy.filterValuesWithKey (c : CasbinPolicy) : List (Nat × String) :=
  c.valueFields.enum.filter (fun iv => iv.2 ≠ "")

/-- Model of `newCasbinPolicy ptype rule` (the spec's `encode`): slot `i` receives
`rule[i]` for `i < min (len rule) 6`; every other slot stays the empty
string.  `rule.getD i ""` is exactly that value. -/
def newCasbinPolicy (ptype : String) (rule : List String) : CasbinPolicy where
  PType := ptype
  V0 := rule.getD 0 ""
  V1 := rule.getD 1 ""
  V2 := rule.getD 2 ""
  V3 := rule.getD 3 ""
  V4 := rule.getD 4 ""
  V5 := rule.getD 5 ""

/-! ### Predicate builder

`deleteFilteredPolicy` and `UpdateFilteredPoliciesCtx` build, for each slot
position `n` in `0..5` that the filter window covers, either an exact
equality `vn = value` or the always-true condition `vn LIKE '%'`.  We
represent one slot condition together with its column index. -/

/-- A single slot condition: `vn LIKE '%'` (satisfied by every string) or
`vn = value`. -/
inductive SlotCond where
  | likeAny : SlotCond
  | eqVal : String → SlotCond
deriving Repr, DecidableEq

/-- Satisfaction of a slot condition by a row: `LIKE '%'` holds of any
string (including the empty string); `eqVal v` is exact equality of the
column with `v`. -/
def condSat (r : CasbinPolicy) : Nat × SlotCond → Bool
  | (_, SlotCond.likeAny) => true
  | (n, SlotCond.eqVal v) => r.slot n == v

/-- The slot-condition list built by the loop in `deleteFilteredPolicy`:
for `n = 0..5`, skip when `fieldIndex > n` or `n >= fieldIndex +
len(fieldValues)`; otherwise take `value = fieldValues[n-fieldIndex]` and
emit `vn LIKE '%'` when `value` is empty, `vn = value` otherwise.
`fieldIndex` is a Go `int`, hence `Int` here. -/
def filteredConds (fieldIndex : Int) (fieldValues : List String) :
    List (Nat × SlotCond) :=
  (List.range 6).filterMap (fun (n : Nat) =>
    if fieldIndex > Int.ofNat n ∨ Int.ofNat n ≥ fieldIndex + fieldValues.length then
      none
    else
      let value := fieldValues.getD (Int.ofNat n - fieldIndex).toNat ""
      if value = "" then some (n, SlotCond.likeAny)
      else some (n, SlotCond.eqVal value))

/-- The slot-condition list built by the loop in
`UpdateFilteredPoliciesCtx` for its select and delete queries: the default
condition is `vn LIKE '%'`, switched to `vn = ?` when the value is
non-empty. -/
def updateFilteredConds (fieldIndex : Int) (fieldValues : List String) :
    List (Nat × SlotCond) :=
  (List.range 6).filterMap (fun (n : Nat) =>
    if fieldIndex > Int.ofNat n ∨ Int.ofNat n ≥ fieldIndex + fieldValues.length then
      none
    else
      let value := fieldValues.getD (Int.ofNat n - fieldIndex).toNat ""
      let cond := if value ≠ "" then SlotCond.eqVal value else SlotCond.likeAny
      some (n, cond))

/-- A row matches the filtered-operation predicate when its `ptype` equals
the given rule type (the separate top-level conjunct) and it satisfies
every generated slot condition. -/
def matchesFiltered (ptype : String) (fieldIndex : Int)
    (fieldValues : List String) (r : CasbinPolicy) : Bool :=
  r.PType == ptype && (filteredConds fieldIndex fieldValues).all (condSat r)

/-! ### Exact-record matching for single remove / update

`deleteRecord` and `updateRecord` filter on `ptype = ?` plus one equality
per non-empty keyed value of the target record. -/

/-- A row matches the exact-record filter of `deleteRecord` /
`updateRecord`: `ptype` equality plus equality on every entry of the
target's keyed non-empty value map. -/
def matchesRecord (p : CasbinPolicy) (r : CasbinPolicy) : Bool :=
  r.PType == p.PType &&
    p.filterValuesWithKey.all (fun iv => r.slot iv.1 == iv.2)

/-! ### Table operations

The table is a list of rows in insertion order.  Deletes keep the
non-matching rows; inserts append. -/

/-- Model of `deleteRecord`: delete every row matching the exact-record filter of
`existingPolicy`. -/
def deleteRecord (table : List CasbinPolicy) (existingPolicy : CasbinPolicy) :
    List CasbinPolicy :=
  table.filter (fun r => !(matchesRecord existingPolicy r))

/-- Model of `RemovePolicyCtx`: encode the rule and delete by the exact-record
filter. -/
def removePolicy (table : List CasbinPolicy) (ptype : String)
    (rule : List String) : List CasbinPolicy :=
  deleteRecord table (newCasbinPolicy ptype rule)

/-- Model of `deleteFilteredPolicy` (backing `RemoveFilteredPolicyCtx`): delete all
rows matching the predicate-builder filter in one statement. -/
def deleteFilteredPolicy (table : List CasbinPolicy) (ptype : String)
    (fieldIndex : Int) (fieldValues : List String) : List CasbinPolicy :=
  table.filter (fun r => !(matchesFiltered ptype fieldIndex fieldValues r))

/-- Model of `updateRecord`: rewrite every row matching the old record's
exact-record filter to the new record's column values. -/
def updateRecord (table : List CasbinPolicy) (oldP newP : CasbinPolicy) :
    List CasbinPolicy :=
  table.map (fun r => if matchesRecord oldP r then newP else r)

/-- Model of `SavePolicyCtx` collects the encodings of every rule of the policy
section and then of the role section; sections are given as association
lists `(ptype, rules)`. -/
def modelPolicyRecords (sec : List (String × List (List String))) :
    List CasbinPolicy :=
  sec.flatMap (fun pr => pr.2.map (newCasbinPolicy pr.1))

/-- Model of `savePolicyRecords` after `refreshTable`: the truncate discards the
whole prior table, then the bulk insert fills it with exactly the given
records. -/
def savePolicyRecords (_table : List CasbinPolicy)
    (policies : List CasbinPolicy) : List CasbinPolicy :=
  [] ++ policies

/-- Model of `SavePolicyCtx`: encode the model's `p`- and `g`-section rules and
replace the table contents with them. -/
def savePolicy (table : List CasbinPolicy)
    (psec gsec : List (String × List (List String))) : List CasbinPolicy :=
  savePolicyRecords table (modelPolicyRecords psec ++ modelPolicyRecords gsec)

/-! ### Failure-aware operations

The storage engine can fail any statement (connection loss, cancellation,
constraint violation); the adapter propagates the error, and a statement
that is part of an open transaction is rolled back with it.  We model a
run of an operation against an arbitrary failure oracle `errAt : Nat →
Bool` telling which of the operation's statements (numbered in execution
order) fail, plus the one failure cause that is decidable inside the
model: the unique index over `(ptype, v0..v5)` created by `createTable`
rejects an insert that duplicates an existing row or another row of the
same statement. -/

/-- All rows of the list pairwise distinct. -/
def allDistinct : List CasbinPolicy → Bool
  | [] => true
  | p :: ps => !ps.contains p && allDistinct ps

/-- Whether inserting `ps` into `table` violates the unique index over
`(ptype, v0..v5)`: some inserted row equals an existing row, or two
inserted rows are equal. -/
def insertViolatesUnique (table ps : List CasbinPolicy) : Bool :=
  ps.any (fun p => table.contains p) || !allDistinct ps

/-- A multi-row insert is one statement: it fails as a whole (by the
failure oracle for this statement or by a unique-index violation) or
appends all rows. -/
def insertMany (fails : Bool) (table ps : List CasbinPolicy) :
    Except Unit (List CasbinPolicy) :=
  if fails ∨ insertViolatesUnique table ps then Except.error ()
  else Except.ok (table ++ ps)

/-- The table visible to other readers after an operation: a committed
transaction (or successful statement) exposes the new table; an error
rolls the transaction back, leaving the original table. -/
def txVisible (table : List CasbinPolicy)
    (result : Except Unit (List CasbinPolicy)) :
    List CasbinPolicy × Bool :=
  match result with
  | Except.ok t => (t, false)
  | Except.error _ => (table, true)

/-- Model of `AddPoliciesCtx`: encode all rules and insert them in one statement
(`errAt 0` is the oracle for that statement). -/
def addPolicies (errAt : Nat → Bool) (table : List CasbinPolicy)
    (ptype : String) (rules : List (List String)) :
    List CasbinPolicy × Bool :=
  txVisible table (insertMany (errAt 0) table (rules.map (newCasbinPolicy ptype)))

/-- The loop body of `RemovePoliciesCtx` inside `RunInTx`: delete each
encoded rule in turn; statement `k` may fail by the oracle, aborting the
transaction. -/
def removeLoop (errAt : Nat → Bool) (k : Nat) (table : List CasbinPolicy)
    (ptype : String) : List (List String) → Except Unit (List CasbinPolicy)
  | [] => Except.ok table
  | rule :: rules =>
    if errAt k then Except.error ()
    else removeLoop errAt (k + 1) (deleteRecord table (newCasbinPolicy ptype rule)) ptype rules

/-- Model of `RemovePoliciesCtx`: run the delete loop inside one transaction. -/
def removePolicies (errAt : Nat → Bool) (table : List CasbinPolicy)
    (ptype : String) (rules : List (List String)) :
    List CasbinPolicy × Bool :=
  txVisible table (removeLoop errAt 0 table ptype rules)

/-- Outcome of `UpdatePoliciesCtx`: a visible table and an error flag, or
a panic (the Go runtime fault from `newPolicies[i]` out of range). -/
inductive UpdateOutcome where
  | done : List CasbinPolicy → Bool → UpdateOutcome
  | panicked : UpdateOutcome
deriving Repr, DecidableEq

/-- The loop of `UpdatePoliciesCtx` inside `RunInTx`: step `i` updates
rows matching `oldPolicies[i]` to `newPolicies[i]`; indexing
`newPolicies[i]` past the end of the new list is a panic, and statement
`k` may fail by the oracle, aborting the transaction. -/
def updateLoop (errAt : Nat → Bool) (k : Nat) (table : List CasbinPolicy) :
    List CasbinPolicy → List CasbinPolicy → Except Unit UpdateOutcome
  | [], _ => Except.ok (UpdateOutcome.done table false)
  | _ :: _, [] => Except.ok UpdateOutcome.panicked
  | o :: olds, nw :: news =>
    if errAt k then Except.error ()
    else updateLoop errAt (k + 1) (updateRecord table o nw) olds news

/-- Model of `UpdatePoliciesCtx`: encode both rule lists and run the pairwise
update loop inside one transaction. -/
def updatePolicies (errAt : Nat → Bool) (table : List CasbinPolicy)
    (ptype : String) (oldRules newRules : List (List String)) : UpdateOutcome :=
  match updateLoop errAt 0 table
      (oldRules.map (newCasbinPolicy ptype)) (newRules.map (newCasbinPolicy ptype)) with
  | Except.ok out => out
  | Except.error _ => UpdateOutcome.done table true

/-- Model of `UpdateFilteredPoliciesCtx`: inside one transaction, select the rows
matching the predicate-builder filter (statement 0), delete those rows
(statement 1), insert the encoded replacement rules (statement 2, also
subject to the unique index), and return the selected rows decoded via
`toSlice`.  Any failure rolls the transaction back: the table is
unchanged and no tuples are returned. -/
def updateFilteredPolicies (errAt : Nat → Bool) (table : List CasbinPolicy)
    (ptype : String) (newRules : List (List String)) (fieldIndex : Int)
    (fieldValues : List String) :
    List CasbinPolicy × Option (List (List String)) :=
  let newPolicies := newRules.map (newCasbinPolicy ptype)
  if errAt 0 then (table, none)
  else
    let oldPolicies := table.filter (matchesFiltered ptype fieldIndex fieldValues)
    if errAt 1 then (table, none)
    else
      let afterDelete :=
        table.filter (fun r => !(matchesFiltered ptype fieldIndex fieldValues r))
      match insertMany (errAt 2) afterDelete newPolicies with
      | Except.error _ => (table, none)
      | Except.ok t => (t, some (oldPolicies.map CasbinPolicy.toSlice))

/-! ### Table bootstrap

`createTable` runs three DDL statements inside one transaction:
`CREATE TABLE IF NOT EXISTS` (bun's `IfNotExists()`), then the raw
statements `CREATE UNIQUE INDEX unique_casbin_policy ...` and
`CREATE INDEX idx_casbin_ptype ...`.  The schema state records which of
the three objects exist.  Per SQL semantics, `CREATE TABLE IF NOT EXISTS`
succeeds either way, while a plain `CREATE INDEX` fails when an index of
that name already exists. -/

/-- Which schema objects exist in the database. -/
structure Schema where
  tableExists : Bool
  uniqueIndexExists : Bool
  ptypeIndexExists : Bool
deriving Repr, DecidableEq

/-- Model of `CREATE TABLE IF NOT EXISTS casbin_policies ...`: skipped when the
table exists, never fails on existence. -/
def createTableStmt (s : Schema) : Except Unit Schema :=
  Except.ok { s with tableExists := true }

/-- Raw `CREATE UNIQUE INDEX unique_casbin_policy on casbin_policies
(ptype, v0, v1, v2, v3, v4, v5)`: no `IF NOT EXISTS`, so it fails when
the index already exists. -/
def createUniqueIndexStmt (s : Schema) : Except Unit Schema :=
  if s.uniqueIndexExists then Except.error ()
  else Except.ok { s with uniqueIndexExists := true }

/-- Raw `CREATE INDEX idx_casbin_ptype ON casbin_policies (ptype)`: no
`IF NOT EXISTS`, so it fails when the index already exists. -/
def createPtypeIndexStmt (s : Schema) : Except Unit Schema :=
  if s.ptypeIndexExists then Except.error ()
  else Except.ok { s with ptypeIndexExists := true }

/-- Model of `createTable`: the three statements in order inside one transaction;
the first failure rolls the transaction back (schema unchanged) and
surfaces the error.  Returns the visible schema and an error flag. -/
def createTable (s : Schema) : Schema × Bool :=
  match createTableStmt s with
  | Except.error _ => (s, true)
  | Except.ok s1 =>
    match createUniqueIndexStmt s1 with
    | Except.error _ => (s, true)
    | Except.ok s2 =>
      match createPtypeIndexStmt s2 with
      | Except.error _ => (s, true)
      | Except.ok s3 => (s3, false)

/-- Model of `NewAdapter`: runs `createTable` unless the
`DisableAutoCreateTable` option set `notCreateTables`; on bootstrap
failure the constructor fails. -/
def newAdapter (s : Schema) (notCreateTables : Bool) : Schema × Bool :=
  if notCreateTables then (s, false) else createTable s

/-! ## Theorems -/

/-- C3: `UpdateFilteredPolicies` with new rules
`[[alice,data1,write],[bob,data1,write]]`, `fieldIndex = 1`,
`fieldValues = [data1, read]` against the three-row table deletes the two
matching rows, inserts the two new rules, returns the deleted rows
decoded via `toSlice`, and leaves the table with exactly
`{alice,data2,write}, {alice,data1,write}, {bob,data1,write}`. -/
theorem updateFilteredPolicies_example :
    updateFilteredPolicies (fun _ => false)
      [⟨"p", "alice", "data1", "read", "", "", ""⟩,
       ⟨"p", "bob", "data1", "read", "", "", ""⟩,
       ⟨"p", "alice", "data2", "write", "", "", ""⟩]
      "p" [["alice", "data1", "write"], ["bob", "data1", "write"]]
      1 ["data1", "read"]
    = ([⟨"p", "alice", "data2", "write", "", "", ""⟩,
        ⟨"p", "alice", "data1", "write", "", "", ""⟩,
        ⟨"p", "bob", "data1", "write", "", "", ""⟩],
       some [["p", "alice", "data1", "read"], ["p", "bob", "data1", "read"]]) := by
  decide

/-- C9: removing the empty rule deletes exactly the rows whose `ptype`
equals the given rule type: the keyed filter map of the all-empty encoded
record is empty, so only the `ptype` conjunct remains. -/
theorem removePolicy_empty_rule (table : List CasbinPolicy) (ptype : String) :
    removePolicy table ptype [] = table.filter (fun r => !(r.PType == ptype)) := by
  unfold removePolicy deleteRecord
  apply List.filter_congr
  intro r _
  simp [matchesRecord, newCasbinPolicy, CasbinPolicy.filterValuesWithKey,
    CasbinPolicy.valueFields, List.enum, List.enumFrom]

/-- C7: `newCasbinPolicy` drops tuple elements past index 5 without
error (encoding a tuple longer than 6 equals encoding its first 6
elements, each slot holding `rule[i]`), and the empty tuple encodes to
the all-empty record whose `filterValues` is the empty sequence. -/
theorem newCasbinPolicy_truncates_and_empty :
    (∀ (ptype : String) (rule : List String), 6 < rule.length →
        newCasbinPolicy ptype rule = newCasbinPolicy ptype (rule.take 6) ∧
        ∀ i, i < 6 → (newCasbinPolicy ptype rule).slot i = rule.getD i "") ∧
    (∀ ptype : String,
        newCasbinPolicy ptype []
          = { PType := ptype, V0 := "", V1 := "", V2 := "", V3 := "", V4 := "",
              V5 := "" } ∧
        (newCasbinPolicy ptype []).filterValues = []) := by
  constructor
  · intro ptype rule _
    have h : ∀ i, i < 6 → (rule.take 6).getD i "" = rule.getD i "" := by
      intro i hi
      simp [List.getD_eq_getElem?_getD, List.getElem?_take, hi]
    constructor
    · unfold newCasbinPolicy
      rw [h 0 (by omega), h 1 (by omega), h 2 (by omega), h 3 (by omega),
        h 4 (by omega), h 5 (by omega)]
    · intro i hi
      interval_cases i <;> rfl
  · intro ptype
    exact ⟨rfl, rfl⟩

/-- Witness for C7 at a concrete 7-element tuple. -/
theorem newCasbinPolicy_truncates_and_empty_witness :
    6 < (["a", "b", "c", "d", "e", "f", "g"] : List String).length ∧
    newCasbinPolicy "p" ["a", "b", "c", "d", "e", "f", "g"]
      = newCasbinPolicy "p" (List.take 6 ["a", "b", "c", "d", "e", "f", "g"]) :=
  ⟨by decide,
    (newCasbinPolicy_truncates_and_empty.1 "p"
      ["a", "b", "c", "d", "e", "f", "g"] (by decide)).1⟩

/-- C8 counterexample: after a successful bootstrap on an empty database,
running `createTable` a second time reports an error (the raw
`CREATE UNIQUE INDEX` has no `IF NOT EXISTS` and the index already
exists), so bootstrap is not idempotent. -/
theorem createTable_second_run_errors :
    (createTable (createTable ⟨false, false, false⟩).1).2 = true := by decide

/-- C8 (amended): bootstrap on a fresh database succeeds and creates all
three objects; but only the table-creation step is guarded by
`IF NOT EXISTS` — when the uniqueness index already exists, `createTable`
fails at the unique-index statement, the transaction rolls back (schema
unchanged) and the error is surfaced; any failing run leaves the schema
unchanged; and `NewAdapter` with `DisableAutoCreateTable` skips
bootstrap entirely. -/
theorem createTable_bootstrap_spec :
    createTable ⟨false, false, false⟩ = (⟨true, true, true⟩, false) ∧
    (∀ s : Schema, s.uniqueIndexExists = true → createTable s = (s, true)) ∧
    (∀ s : Schema, (createTable s).2 = true → (createTable s).1 = s) ∧
    (∀ s : Schema, newAdapter s true = (s, false)) := by
  refine ⟨by decide, ?_, ?_, ?_⟩
  · intro s h
    simp [createTable, createTableStmt, createUniqueIndexStmt, h]
  · intro s
    rcases s with ⟨t, u, p⟩
    cases t <;> cases u <;> cases p <;> decide
  · intro s
    simp [newAdapter]

/-- Witness for C8's amended statement: a database that already has both
indexes makes the second bootstrap fail and leaves the schema unchanged,
and opting out skips bootstrap. -/
theorem createTable_bootstrap_spec_witness :
    createTable ⟨true, true, false⟩ = (⟨true, true, false⟩, true) ∧
    newAdapter ⟨true, true, true⟩ true = (⟨true, true, true⟩, false) :=
  ⟨createTable_bootstrap_spec.2.1 ⟨true, true, false⟩ (by decide),
    createTable_bootstrap_spec.2.2.2 ⟨true, true, true⟩⟩

/-- The pairwise update loop never produces the panic outcome when the
new list is at least as long as the old list. -/
theorem updateLoop_no_panic (olds : List CasbinPolicy) :
    ∀ (news : List CasbinPolicy) (errAt : Nat → Bool) (k : Nat)
      (table : List CasbinPolicy),
      olds.length ≤ news.length →
      updateLoop errAt k table olds news ≠ Except.ok UpdateOutcome.panicked := by
  induction olds with
  | nil =>
    intro news errAt k table _ h
    simp [updateLoop] at h
  | cons o os ih =>
    intro news errAt k table hlen h
    cases news with
    | nil => simp at hlen
    | cons nw ns =>
      rw [updateLoop] at h
      by_cases he : errAt k = true
      · simp [he] at h
      · simp only [he, if_false, Bool.false_eq_true] at h
        exact ih ns errAt (k + 1) (updateRecord table o nw)
          (by simpa using hlen) h

/-- C10: when `len newRules ≥ len oldRules` the `newPolicies[i]` access
of `UpdatePoliciesCtx` is always in bounds, so the batch update never
panics; with fewer new rules than old rules the indexing runs out of
range, which is a panic rather than a returned error. -/
theorem updatePolicies_index_safety :
    (∀ (errAt : Nat → Bool) (table : List CasbinPolicy) (ptype : String)
        (oldRules newRules : List (List String)),
        oldRules.length ≤ newRules.length →
        updatePolicies errAt table ptype oldRules newRules
          ≠ UpdateOutcome.panicked) ∧
    updatePolicies (fun _ => false) [] "p" [["a"], ["b"]] [["c"]]
      = UpdateOutcome.panicked := by
  constructor
  · intro errAt table ptype oldRules newRules hlen hpanic
    unfold updatePolicies at hpanic
    cases hloop : updateLoop errAt 0 table
        (oldRules.map (newCasbinPolicy ptype))
        (newRules.map (newCasbinPolicy ptype)) with
    | ok out =>
      rw [hloop] at hpanic
      simp only [] at hpanic
      refine updateLoop_no_panic (oldRules.map (newCasbinPolicy ptype))
        (newRules.map (newCasbinPolicy ptype)) errAt 0 table
        (by simpa using hlen) ?_
      rw [hloop, hpanic]
    | error e =>
      rw [hloop] at hpanic
      cases hpanic
  · decide

/-- Witness for C10's bounds-safety half at a concrete input. -/
theorem updatePolicies_index_safety_witness :
    updatePolicies (fun _ => false) [] "p" [["a"]] [["b"]]
      ≠ UpdateOutcome.panicked :=
  updatePolicies_index_safety.1 (fun _ => false) [] "p" [["a"]] [["b"]]
    (by decide)

/-- C4: `SavePolicyCtx` discards the entire prior table (truncate) and
leaves exactly the encodings of the rules of the model's `p`- and
`g`-sections, no matter what the table held before. -/
theorem savePolicy_replaces_table :
    ∀ (table : List CasbinPolicy)
      (psec gsec : List (String × List (List String))),
      savePolicy table psec gsec
        = modelPolicyRecords psec ++ modelPolicyRecords gsec ∧
      ∀ r : CasbinPolicy,
        r ∈ savePolicy table psec gsec ↔
          ((∃ pr ∈ psec, ∃ rule ∈ pr.2, r = newCasbinPolicy pr.1 rule) ∨
           (∃ gr ∈ gsec, ∃ rule ∈ gr.2, r = newCasbinPolicy gr.1 rule)) := by
  intro table psec gsec
  refine ⟨rfl, ?_⟩
  intro r
  simp only [savePolicy, savePolicyRecords, modelPolicyRecords,
    List.nil_append, List.mem_append, List.mem_flatMap, List.mem_map]
  constructor
  · rintro (⟨pr, hpr, rule, hrule, rfl⟩ | ⟨gr, hgr, rule, hrule, rfl⟩)
    · exact Or.inl ⟨pr, hpr, rule, hrule, rfl⟩
    · exact Or.inr ⟨gr, hgr, rule, hrule, rfl⟩
  · rintro (⟨pr, hpr, rule, hrule, rfl⟩ | ⟨gr, hgr, rule, hrule, rfl⟩)
    · exact Or.inl ⟨pr, hpr, rule, hrule, rfl⟩
    · exact Or.inr ⟨gr, hgr, rule, hrule, rfl⟩

/-- C1 counterexample: the round-trip fails for the in-bounds tuple
`[""]` — decoding drops the empty-string element. -/
theorem roundtrip_fails_on_empty_element :
    ([""] : List String).length ≤ 6 ∧
    (newCasbinPolicy "p" [""]).filterValues ≠ [""] := by decide

/-- C1 (amended): for every rule type and tuple of length at most 6
whose elements are all non-empty, decoding the filter values of the
encoded record yields the tuple exactly. -/
theorem filterValues_roundtrip (ptype : String) (T : List String)
    (hlen : T.length ≤ 6) (hne : ∀ v ∈ T, v ≠ "") :
    (newCasbinPolicy ptype T).filterValues = T := by
  rcases T with _ | ⟨a, _ | ⟨b, _ | ⟨c, _ | ⟨d, _ | ⟨e, _ | ⟨f, _ | ⟨g, rest⟩⟩⟩⟩⟩⟩⟩
  · rfl
  all_goals
    simp_all [CasbinPolicy.filterValues, CasbinPolicy.valueFields,
      newCasbinPolicy, nonEmptyFields, List.getD]

/-- Witness for C1's amended round-trip at a concrete tuple. -/
theorem filterValues_roundtrip_witness :
    (newCasbinPolicy "p" ["alice", "data1", "read"]).filterValues
      = ["alice", "data1", "read"] :=
  filterValues_roundtrip "p" ["alice", "data1", "read"] (by decide) (by decide)

/-- The exact-record filter of `deleteRecord`/`updateRecord` holds
exactly when `ptype` matches and every non-empty slot of the target
record matches the row, the empty slots being unconstrained. -/
theorem matchesRecord_eq_true_iff (p r : CasbinPolicy) :
    matchesRecord p r = true ↔
      (r.PType = p.PType ∧
        ∀ i, i < 6 → p.slot i ≠ "" → r.slot i = p.slot i) := by
  have hlist : p.filterValuesWithKey
      = [(0, p.V0), (1, p.V1), (2, p.V2), (3, p.V3), (4, p.V4),
         (5, p.V5)].filter (fun iv => iv.2 ≠ "") := rfl
  rw [matchesRecord, Bool.and_eq_true, List.all_eq_true, beq_iff_eq, hlist]
  constructor
  · rintro ⟨h0, h1⟩
    refine ⟨h0, ?_⟩
    intro i hi hne
    interval_cases i
    · simpa [CasbinPolicy.slot] using
        h1 (0, p.V0) (List.mem_filter.mpr
          ⟨by simp, by simpa [CasbinPolicy.slot] using hne⟩)
    · simpa [CasbinPolicy.slot] using
        h1 (1, p.V1) (List.mem_filter.mpr
          ⟨by simp, by simpa [CasbinPolicy.slot] using hne⟩)
    · simpa [CasbinPolicy.slot] using
        h1 (2, p.V2) (List.mem_filter.mpr
          ⟨by simp, by simpa [CasbinPolicy.slot] using hne⟩)
    · simpa [CasbinPolicy.slot] using
        h1 (3, p.V3) (List.mem_filter.mpr
          ⟨by simp, by simpa [CasbinPolicy.slot] using hne⟩)
    · simpa [CasbinPolicy.slot] using
        h1 (4, p.V4) (List.mem_filter.mpr
          ⟨by simp, by simpa [CasbinPolicy.slot] using hne⟩)
    · simpa [CasbinPolicy.slot] using
        h1 (5, p.V5) (List.mem_filter.mpr
          ⟨by simp, by simpa [CasbinPolicy.slot] using hne⟩)
  · rintro ⟨h0, h1⟩
    refine ⟨h0, ?_⟩
    intro x hx
    rw [List.mem_filter] at hx
    obtain ⟨hmem, hne⟩ := hx
    simp only [List.mem_cons, List.not_mem_nil, or_false] at hmem
    rcases hmem with rfl | rfl | rfl | rfl | rfl | rfl
    · simpa [CasbinPolicy.slot] using
        h1 0 (by omega) (by simpa [CasbinPolicy.slot] using hne)
    · simpa [CasbinPolicy.slot] using
        h1 1 (by omega) (by simpa [CasbinPolicy.slot] using hne)
    · simpa [CasbinPolicy.slot] using
        h1 2 (by omega) (by simpa [CasbinPolicy.slot] using hne)
    · simpa [CasbinPolicy.slot] using
        h1 3 (by omega) (by simpa [CasbinPolicy.slot] using hne)
    · simpa [CasbinPolicy.slot] using
        h1 4 (by omega) (by simpa [CasbinPolicy.slot] using hne)
    · simpa [CasbinPolicy.slot] using
        h1 5 (by omega) (by simpa [CasbinPolicy.slot] using hne)

/-- C6: single remove matches on the partial key formed by `ptype` plus
the non-empty slots of the encoded tuple; a row of the table is removed
exactly when its `ptype` equals the given one and it agrees with the
encoded record on every non-empty slot, the empty slots being
unconstrained — so all rows sharing the partial key are deleted. -/
theorem removePolicy_underspecified_key (table : List CasbinPolicy) (ptype : String)
    (rule : List String) (r : CasbinPolicy) (hr : r ∈ table) :
    r ∉ removePolicy table ptype rule ↔
      (r.PType = ptype ∧
        ∀ i, i < 6 → (newCasbinPolicy ptype rule).slot i ≠ "" →
          r.slot i = (newCasbinPolicy ptype rule).slot i) := by
  have hmem : r ∈ removePolicy table ptype rule ↔
      (r ∈ table ∧ ¬ matchesRecord (newCasbinPolicy ptype rule) r = true) := by
    unfold removePolicy deleteRecord
    rw [List.mem_filter]
    simp
  rw [hmem, matchesRecord_eq_true_iff]
  constructor
  · intro h
    by_contra hc
    exact h ⟨hr, hc⟩
  · intro hx hmem2
    exact hmem2.2 hx

/-- Witness for C6: removing the under-specified tuple `[alice]` deletes
both rows sharing the partial key `(p, v0 = alice)`. -/
theorem removePolicy_underspecified_key_witness :
    (⟨"p", "alice", "data1", "read", "", "", ""⟩ : CasbinPolicy) ∉
      removePolicy
        [⟨"p", "alice", "data1", "read", "", "", ""⟩,
         ⟨"p", "alice", "data2", "write", "", "", ""⟩] "p" ["alice"] ∧
    (⟨"p", "alice", "data2", "write", "", "", ""⟩ : CasbinPolicy) ∉
      removePolicy
        [⟨"p", "alice", "data1", "read", "", "", ""⟩,
         ⟨"p", "alice", "data2", "write", "", "", ""⟩] "p" ["alice"] :=
  ⟨(removePolicy_underspecified_key _ "p" ["alice"] _ (by decide)).mpr (by decide),
    (removePolicy_underspecified_key _ "p" ["alice"] _ (by decide)).mpr (by decide)⟩

/-- C2: the filter built for filtered delete and for the select/delete
halves of filtered replace constrains exactly the slot positions `n` with
`fieldIndex ≤ n < fieldIndex + len(values)` and `n ≤ 5` — with the
always-true `LIKE '%'` condition when `values[n - fieldIndex]` is empty
and exact equality otherwise; both builders produce the same conditions;
the `LIKE '%'` condition is satisfied by every row; and the whole
predicate is the `ptype` equality conjoined with all slot conditions. -/
theorem filteredConds_spec :
    (∀ (fieldIndex : Int) (fieldValues : List String) (m : Nat)
        (c : SlotCond),
        (m, c) ∈ filteredConds fieldIndex fieldValues ↔
          (m < 6 ∧ fieldIndex ≤ Int.ofNat m ∧
            Int.ofNat m < fieldIndex + fieldValues.length ∧
            c = (if fieldValues.getD (Int.ofNat m - fieldIndex).toNat "" = ""
                then SlotCond.likeAny
                else SlotCond.eqVal
                  (fieldValues.getD (Int.ofNat m - fieldIndex).toNat "")))) ∧
    (∀ (fieldIndex : Int) (fieldValues : List String),
        updateFilteredConds fieldIndex fieldValues
          = filteredConds fieldIndex fieldValues) ∧
    (∀ (r : CasbinPolicy) (n : Nat), condSat r (n, SlotCond.likeAny) = true) ∧
    (∀ (ptype : String) (fieldIndex : Int) (fieldValues : List String)
        (r : CasbinPolicy),
        matchesFiltered ptype fieldIndex fieldValues r = true ↔
          (r.PType = ptype ∧
            ∀ nc ∈ filteredConds fieldIndex fieldValues,
              condSat r nc = true)) := by
  refine ⟨?_, ?_, ?_, ?_⟩
  · intro fi vals m c
    simp only [filteredConds, List.mem_filterMap, List.mem_range]
    constructor
    · rintro ⟨n, hn, hf⟩
      by_cases hskip : fi > Int.ofNat n ∨ Int.ofNat n ≥ fi + (vals.length : Int)
      · rw [if_pos hskip] at hf
        cases hf
      · rw [if_neg hskip] at hf
        push_neg at hskip
        by_cases hv : vals.getD (Int.ofNat n - fi).toNat "" = ""
        · simp only [hv, if_pos, Option.some.injEq, Prod.mk.injEq] at hf
          obtain ⟨rfl, rfl⟩ := hf
          refine ⟨hn, hskip.1, hskip.2, ?_⟩
          rw [if_pos hv]
        · simp only [hv, if_neg, Option.some.injEq, Prod.mk.injEq,
            if_false] at hf
          obtain ⟨rfl, rfl⟩ := hf
          refine ⟨hn, hskip.1, hskip.2, ?_⟩
          rw [if_neg hv]
    · rintro ⟨hm, h1, h2, rfl⟩
      refine ⟨m, hm, ?_⟩
      rw [if_neg (by push_neg; exact ⟨h1, h2⟩)]
      by_cases hv : vals.getD (Int.ofNat m - fi).toNat "" = ""
      · rw [if_pos hv, if_pos hv]
      · rw [if_neg hv, if_neg hv]
  · intro fi vals
    unfold updateFilteredConds filteredConds
    apply List.filterMap_congr
    intro n _
    by_cases hskip : fi > Int.ofNat n ∨ Int.ofNat n ≥ fi + (vals.length : Int)
    · rw [if_pos hskip, if_pos hskip]
    · rw [if_neg hskip, if_neg hskip]
      simp only [ne_eq, ite_not]
      split <;> simp_all
  · intro r n
    rfl
  · intro ptype fi vals r
    rw [matchesFiltered, Bool.and_eq_true, List.all_eq_true, beq_iff_eq]

/-- Witness for C2 at a concrete filter: `fieldIndex = 1`,
`values = ["", "read"]` constrains slot 1 with the always-true condition
and slot 2 with equality, both builders agree, and the predicate accepts
a row of the right `ptype` satisfying the slot conditions. -/
theorem filteredConds_spec_witness :
    ((1, SlotCond.likeAny) ∈ filteredConds 1 ["", "read"]) ∧
    updateFilteredConds 1 ["", "read"] = filteredConds 1 ["", "read"] ∧
    condSat ⟨"p", "x", "y", "z", "", "", ""⟩ (3, SlotCond.likeAny) = true ∧
    matchesFiltered "p" 1 ["", "read"]
      ⟨"p", "alice", "data1", "read", "", "", ""⟩ = true :=
  ⟨(filteredConds_spec.1 1 ["", "read"] 1 SlotCond.likeAny).mpr
      (by refine ⟨by decide, by decide, by decide, ?_⟩; decide),
    filteredConds_spec.2.1 1 ["", "read"],
    filteredConds_spec.2.2.1 ⟨"p", "x", "y", "z", "", "", ""⟩ 3,
    (filteredConds_spec.2.2.2 "p" 1 ["", "read"]
        ⟨"p", "alice", "data1", "read", "", "", ""⟩).mpr (by decide)⟩

/-- An errored transaction leaves the original table visible. -/
theorem txVisible_error (table : List CasbinPolicy)
    (res : Except Unit (List CasbinPolicy)) :
    (txVisible table res).2 = true → (txVisible table res).1 = table := by
  cases res with
  | ok t => intro h; cases h
  | error e => intro _; rfl

/-- C5: every batch mutation is all-or-nothing — whenever batch add,
batch remove, batch update, or filtered replace reports an error (for any
pattern of statement failures, including a unique-violation on a
mid-batch insert), the visible table equals the table from before the
call. -/
theorem batch_all_or_nothing :
    (∀ (errAt : Nat → Bool) (table : List CasbinPolicy) (ptype : String)
        (rules : List (List String)),
        (addPolicies errAt table ptype rules).2 = true →
        (addPolicies errAt table ptype rules).1 = table) ∧
    (∀ (errAt : Nat → Bool) (table : List CasbinPolicy) (ptype : String)
        (rules : List (List String)),
        (removePolicies errAt table ptype rules).2 = true →
        (removePolicies errAt table ptype rules).1 = table) ∧
    (∀ (errAt : Nat → Bool) (table : List CasbinPolicy) (ptype : String)
        (oldRules newRules : List (List String)) (t : List CasbinPolicy),
        updatePolicies errAt table ptype oldRules newRules
          = UpdateOutcome.done t true → t = table) ∧
    (∀ (errAt : Nat → Bool) (table : List CasbinPolicy) (ptype : String)
        (newRules : List (List String)) (fieldIndex : Int)
        (fieldValues : List String),
        (updateFilteredPolicies errAt table ptype newRules fieldIndex
            fieldValues).2 = none →
        (updateFilteredPolicies errAt table ptype newRules fieldIndex
            fieldValues).1 = table) := by
  have loopflag : ∀ (olds : List CasbinPolicy) (news : List CasbinPolicy)
      (errAt : Nat → Bool) (k : Nat) (table t : List CasbinPolicy),
      updateLoop errAt k table olds news
        ≠ Except.ok (UpdateOutcome.done t true) := by
    intro olds
    induction olds with
    | nil =>
      intro news errAt k table t h
      simp [updateLoop] at h
    | cons o os ih =>
      intro news errAt k table t h
      cases news with
      | nil => simp [updateLoop] at h
      | cons nw ns =>
        rw [updateLoop] at h
        by_cases he : errAt k = true
        · simp [he] at h
        · simp only [he, if_false, Bool.false_eq_true] at h
          exact ih ns errAt (k + 1) (updateRecord table o nw) t h
  refine ⟨?_, ?_, ?_, ?_⟩
  · intro errAt table ptype rules h
    exact txVisible_error table _ h
  · intro errAt table ptype rules h
    exact txVisible_error table _ h
  · intro errAt table ptype oldRules newRules t h
    unfold updatePolicies at h
    cases hloop : updateLoop errAt 0 table
        (oldRules.map (newCasbinPolicy ptype))
        (newRules.map (newCasbinPolicy ptype)) with
    | ok out =>
      rw [hloop] at h
      simp only [] at h
      exact absurd (hloop.trans (by rw [h])) (loopflag _ _ errAt 0 table t)
    | error e =>
      rw [hloop] at h
      simp only [UpdateOutcome.done.injEq] at h
      exact h.1.symm
  · intro errAt table ptype newRules fieldIndex fieldValues
    unfold updateFilteredPolicies
    by_cases h0 : errAt 0 = true
    · simp [h0]
    · simp only [h0, Bool.false_eq_true, if_false]
      by_cases h1 : errAt 1 = true
      · simp [h1]
      · simp only [h1, Bool.false_eq_true, if_false]
        cases hins : insertMany (errAt 2)
            (table.filter
              (fun r => !(matchesFiltered ptype fieldIndex fieldValues r)))
            (newRules.map (newCasbinPolicy ptype)) with
        | ok t => simp [hins]
        | error e => simp [hins]

/-- Witness for C5: a mid-batch duplicate insert, an aborted batch
delete, an aborted batch update, and an aborted filtered replace all
leave their tables unchanged. -/
theorem batch_all_or_nothing_witness :
    (addPolicies (fun _ => false) [⟨"p", "a", "", "", "", "", ""⟩] "p"
        [["b"], ["a"]]).1 = [⟨"p", "a", "", "", "", "", ""⟩] ∧
    (removePolicies (fun _ => true) [⟨"p", "a", "", "", "", "", ""⟩] "p"
        [["a"]]).1 = [⟨"p", "a", "", "", "", "", ""⟩] ∧
    ([⟨"p", "c", "", "", "", "", ""⟩] : List CasbinPolicy)
      = [⟨"p", "c", "", "", "", "", ""⟩] ∧
    (updateFilteredPolicies (fun _ => true) [⟨"p", "a", "", "", "", "", ""⟩]
        "p" [] 0 []).1 = [⟨"p", "a", "", "", "", "", ""⟩] :=
  ⟨batch_all_or_nothing.1 (fun _ => false) [⟨"p", "a", "", "", "", "", ""⟩]
      "p" [["b"], ["a"]] (by decide),
    batch_all_or_nothing.2.1 (fun _ => true) [⟨"p", "a", "", "", "", "", ""⟩]
      "p" [["a"]] (by decide),
    batch_all_or_nothing.2.2.1 (fun _ => true) [⟨"p", "c", "", "", "", "", ""⟩]
      "p" [["a"]] [["b"]] [⟨"p", "c", "", "", "", "", ""⟩] (by decide),
    batch_all_or_nothing.2.2.2 (fun _ => true) [⟨"p", "a", "", "", "", "", ""⟩]
      "p" [] 0 [] (by decide)⟩

end Casbun
